import Mathlib

/-!
Shallow embedding of the Argentine license-plate recognizer
(`anpr_easyocr.py`, class `ArgentinePlateRecognizer`).

Strings are modelled as `List Char`.  Python's `str.isalpha` / `str.isdigit`
are modelled over the ASCII range (every string the engine manipulates is the
output of `clean_text`, whose image is contained in `A`–`Z`, `0`–`9`).
OCR confidences (Python floats in `[0,1]`) are modelled as rationals, which
preserves the comparison logic of the confidence filter.
-/

namespace ANPR

/-- ASCII uppercase letter test. -/
def isUpperAlpha (c : Char) : Bool := 'A' ≤ c && c ≤ 'Z'

/-- ASCII letter test (model of Python `str.isalpha` at character level). -/
def isAsciiLetter (c : Char) : Bool :=
  ('A' ≤ c && c ≤ 'Z') || ('a' ≤ c && c ≤ 'z')

/-- ASCII digit test (model of Python `str.isdigit` at character level). -/
def isDigitChar (c : Char) : Bool := '0' ≤ c && c ≤ '9'

/-- Python `s.isalpha()`: nonempty and every character alphabetic. -/
def str_isalpha (s : List Char) : Bool := !s.isEmpty && s.all isAsciiLetter

/-- Python `s.isdigit()`: nonempty and every character a digit. -/
def str_isdigit (s : List Char) : Bool := !s.isEmpty && s.all isDigitChar

/-- `validate_plate_format` from the source: length-keyed positional
character-class checks (6: AAA999, 7: AA999AA or A999AAA, 8: A999AAAA). -/
def validate_plate_format (text : List Char) : Bool :=
  if text.length = 6 then
    str_isalpha (text.take 3) && str_isdigit (text.drop 3)
  else if text.length = 7 then
    (str_isalpha (text.take 2) && str_isdigit ((text.drop 2).take 3) &&
      str_isalpha (text.drop 5)) ||
    (str_isalpha (text.take 1) && str_isdigit ((text.drop 1).take 3) &&
      str_isalpha (text.drop 4))
  else if text.length = 8 then
    str_isalpha (text.take 1) && str_isdigit ((text.drop 1).take 3) &&
      str_isalpha (text.drop 4)
  else false

/-- The `ambiguous_map` table from the source, as an association list. -/
def ambiguous_map : List (Char × List Char) :=
  [ ('0', ['0', 'O', 'D']),
    ('O', ['O', '0', 'D']),
    ('D', ['D', 'O', '0']),
    ('1', ['1', 'I', 'L']),
    ('I', ['I', '1', 'L']),
    ('L', ['L', '1', 'I']),
    ('2', ['2', 'Z']),
    ('Z', ['Z', '2']),
    ('5', ['5', 'S']),
    ('S', ['S', '5']),
    ('8', ['8', 'B']),
    ('B', ['B', '8']),
    ('4', ['4', 'A']),
    ('A', ['A', '4']),
    ('V', ['V', 'Y']),
    ('Y', ['Y', 'V']),
    ('N', ['N', 'M']),
    ('M', ['M', 'N']),
    ('C', ['C', 'G']),
    ('G', ['G', 'C']) ]

/-- Variant set of a character: its `ambiguous_map` entry, or just itself
when the character is not a key (the `else: options.append([c])` branch). -/
def ambiguousLookup (c : Char) : List Char :=
  match ambiguous_map.lookup c with
  | some l => l
  | none => [c]

/-- `itertools.product` over a list of per-position choice lists, in Python's
enumeration order (rightmost position varies fastest). -/
def pyProduct : List (List Char) → List (List Char)
  | [] => [[]]
  | l :: ls => l.flatMap (fun a => (pyProduct ls).map (fun rest => a :: rest))

/-- `generate_ambiguity_variants` from the source: the Cartesian product of
each character's variant set, in `itertools.product` order. -/
def generate_ambiguity_variants (text : List Char) : List (List Char) :=
  pyProduct (text.map ambiguousLookup)

/-- The `ignore_words` set from the source. -/
def ignore_words : List (List Char) :=
  [ "ARGENTINA".toList, "REPUBLICA".toList, "MERCOSUR".toList,
    "AUTOMOTOR".toList, "NACIONAL".toList, "BLOG".toList, "CO".toList,
    "WWW".toList, "FECOSUR".toList, "FECOSURR".toList, "DE".toList,
    "DEL".toList, "OFICIAL".toList, "VEHICULO".toList, "VEHICULOS".toList,
    "GOBIERNO".toList, "PODER".toList, "EJECUTIVO".toList ]

/-- NFKD-decomposition to a base ASCII letter for the accented Latin
characters relevant here; other non-ASCII characters decompose to nothing
printable in ASCII and are dropped by `encode("ascii","ignore")`. -/
def accentTable : List (Char × Char) :=
  [ ('á', 'a'), ('é', 'e'), ('í', 'i'), ('ó', 'o'), ('ú', 'u'),
    ('ü', 'u'), ('ñ', 'n'),
    ('Á', 'A'), ('É', 'E'), ('Í', 'I'), ('Ó', 'O'), ('Ú', 'U'),
    ('Ü', 'U'), ('Ñ', 'N') ]

/-- Model of `unicodedata.normalize("NFKD", ·).encode("ascii","ignore")`
at character level: ASCII characters pass through, accented Latin letters
lose their accent, anything else is dropped. -/
def nfkd_ascii (c : Char) : List Char :=
  if c.toNat < 128 then [c]
  else
    match accentTable.lookup c with
    | some b => [b]
    | none => []

/-- `clean_text` from the source: NFKD + ASCII-ignore, uppercase, then strip
everything outside `A`–`Z`, `0`–`9`. -/
def clean_text (s : List Char) : List Char :=
  ((s.flatMap nfkd_ascii).map Char.toUpper).filter
    (fun c => isUpperAlpha c || isDigitChar c)

/-- One OCR observation as consumed after `reader.readtext`: a vertical
anchor (the minimum `y` of the bounding box, the only spatial datum the
code uses), the detected text, and a confidence. -/
structure Token where
  y : Int
  text : List Char
  conf : ℚ
deriving DecidableEq

/-- `should_ignore` from `extract_candidate_from_group`. -/
def should_ignore (txt : List Char) : Bool :=
  ignore_words.contains txt || txt.length > 8

/-- The pre-filter applied to build `original_texts`: confidence at least
the configured minimum and the cleaned text not ignored. -/
def keepToken (minConf : ℚ) (tok : Token) : Bool :=
  decide (minConf ≤ tok.conf) && !should_ignore (clean_text tok.text)

/-- `cleaned_texts` from the source: cleaned texts of the tokens that pass
the confidence/ignore pre-filter, in input order. -/
def cleaned_texts (minConf : ℚ) (group : List Token) : List (List Char) :=
  (group.filter (keepToken minConf)).map (fun tok => clean_text tok.text)

/-- All ordered pairs `(l[i], l[j])` with `i < j`, in the order of the
source's nested `for i / for j in range(i+1, …)` loops. -/
def orderedPairs {α : Type} : List α → List (α × α)
  | [] => []
  | x :: xs => (xs.map (fun y => (x, y))) ++ orderedPairs xs

/-- Helper for `perms2`: `pre` holds the elements already passed. -/
def perms2Aux {α : Type} (pre : List α) : List α → List (α × α)
  | [] => []
  | x :: xs => ((pre ++ xs).map (fun y => (x, y))) ++ perms2Aux (pre ++ [x]) xs

/-- `itertools.permutations(l, 2)` in Python's order: for each index `i`,
pair `l[i]` with every other element in original order. -/
def perms2 {α : Type} (l : List α) : List (α × α) := perms2Aux [] l

/-- The priority-rule pattern: length 8, first 3 characters alphabetic,
remaining 5 all digits (`len == 8 and raw[0:3].isalpha() and
raw[3:].isdigit()`). -/
def isPriorityPattern (r : List Char) : Bool :=
  r.length == 8 && str_isalpha (r.take 3) && str_isdigit (r.drop 3)

/-- Tier 1, the REGLA PRIORITARIA loop: first `i < j` concatenation matching
the priority pattern, returned verbatim. -/
def tier1 (ts : List (List Char)) : Option (List Char) :=
  (orderedPairs ts).findSome? (fun p =>
    if isPriorityPattern (p.1 ++ p.2) then some (p.1 ++ p.2) else none)

/-- Tier 2 (`# 0.` in the source): first `i < j` concatenation passing
`validate_plate_format`. -/
def tier2 (ts : List (List Char)) : Option (List Char) :=
  (orderedPairs ts).findSome? (fun p =>
    if validate_plate_format (p.1 ++ p.2) then some (p.1 ++ p.2) else none)

/-- Tier 3 (`# 1.`): first valid concatenation over
`itertools.permutations(ts, 2)`. -/
def tier3 (ts : List (List Char)) : Option (List Char) :=
  (perms2 ts).findSome? (fun p =>
    if validate_plate_format (p.1 ++ p.2) then some (p.1 ++ p.2) else none)

/-- Tier 4 (`# 2.`): over permutations, first ambiguity variant of the
concatenation passing the validator. -/
def tier4 (ts : List (List Char)) : Option (List Char) :=
  (perms2 ts).findSome? (fun p =>
    (generate_ambiguity_variants (p.1 ++ p.2)).find? validate_plate_format)

/-- Tier 5 (`# 3.`): first single token passing the validator. -/
def tier5 (ts : List (List Char)) : Option (List Char) :=
  ts.find? validate_plate_format

/-- Tier 6 (`# 4.`): for each token, first ambiguity variant passing the
validator. -/
def tier6 (ts : List (List Char)) : Option (List Char) :=
  ts.findSome? (fun t =>
    (generate_ambiguity_variants t).find? validate_plate_format)

/-- The token texts used by the fallback tier (`# 5.`): every cleaned text
that survives `should_ignore`, with NO confidence filtering. -/
def fallback_texts (group : List Token) : List (List Char) :=
  (group.map (fun tok => clean_text tok.text)).filter (fun t => !should_ignore t)

/-- One window check of the fallback: raw validity first, then the first
valid ambiguity variant. -/
def windowCheck (cand : List Char) : Option (List Char) :=
  if validate_plate_format cand then some cand
  else (generate_ambiguity_variants cand).find? validate_plate_format

/-- Tier 7 (`# 5.` fallback): concatenate all non-ignored cleaned texts and
slide windows of length 6, then 7, then 8, left to right. -/
def tier7 (group : List Token) : Option (List Char) :=
  let combined := (fallback_texts group).flatten
  [6, 7, 8].findSome? (fun len =>
    (List.range (combined.length + 1 - len)).findSome? (fun j =>
      windowCheck ((combined.drop j).take len)))

/-- `extract_candidate_from_group`: the tiers in source order, first match
wins, `none` when every tier fails. -/
def extract_candidate_from_group (minConf : ℚ) (group : List Token) :
    Option (List Char) :=
  let ts := cleaned_texts minConf group
  ((((((tier1 ts).or (tier2 ts)).or (tier3 ts)).or (tier4 ts)).or
      (tier5 ts)).or (tier6 ts)).or (tier7 group)

/-- Stable insertion of a token into a list sorted by `y` (equal keys keep
their existing order, matching Python's stable `sorted`). -/
def insertByY (tok : Token) : List Token → List Token
  | [] => [tok]
  | t :: ts => if tok.y ≤ t.y then tok :: t :: ts else t :: insertByY tok ts

/-- `group_close_texts` followed by `sum(groups, [])`: a stable sort of the
OCR results by vertical position (each result is its own singleton group,
so flattening the groups is just the sorted list). -/
def sortByY (l : List Token) : List Token := l.foldr insertByY []

/-- The not-found sentinel string returned by `recognize_plate`. -/
def sentinel : List Char := "No se detectó patente válida.".toList

/-- The post-OCR logic of `recognize_plate`: sort the results vertically,
run the candidate search, and return the candidate when it is truthy
(Python `if candidate:`), the sentinel otherwise. -/
def recognize_from_results (minConf : ℚ) (results : List Token) : List Char :=
  match extract_candidate_from_group minConf (sortByY results) with
  | some c => if c.isEmpty then sentinel else c
  | none => sentinel

/-- Spec-side reading of the plate grammars: a pure disjunction of
length-keyed positional character-class conditions, with no nonemptiness
side conditions. -/
def validate_spec (s : List Char) : Prop :=
  (s.length = 6 ∧ (s.take 3).all isAsciiLetter = true ∧
    (s.drop 3).all isDigitChar = true) ∨
  (s.length = 7 ∧
    (((s.take 2).all isAsciiLetter = true ∧
        ((s.drop 2).take 3).all isDigitChar = true ∧
        (s.drop 5).all isAsciiLetter = true) ∨
     ((s.take 1).all isAsciiLetter = true ∧
        ((s.drop 1).take 3).all isDigitChar = true ∧
        (s.drop 4).all isAsciiLetter = true))) ∨
  (s.length = 8 ∧ (s.take 1).all isAsciiLetter = true ∧
    ((s.drop 1).take 3).all isDigitChar = true ∧
    (s.drop 4).all isAsciiLetter = true)

theorem str_isalpha_eq {s : List Char} (h : s.length ≠ 0) :
    str_isalpha s = s.all isAsciiLetter := by
  cases s with
  | nil => simp at h
  | cons a l => rfl

theorem str_isdigit_eq {s : List Char} (h : s.length ≠ 0) :
    str_isdigit s = s.all isDigitChar := by
  cases s with
  | nil => simp at h
  | cons a l => rfl

-- scratch checks
example : extract_candidate_from_group 1
    [⟨0, "ABC".toList, 1⟩, ⟨0, "12345".toList, 1⟩] = some "ABC12345".toList := by decide
example : extract_candidate_from_group 1
    [⟨0, "A123".toList, 1⟩, ⟨0, "BCDE".toList, 1⟩, ⟨0, "XYZ".toList, 1⟩,
     ⟨0, "12345".toList, 1⟩] = some "XYZ12345".toList := by decide
example : extract_candidate_from_group 1
    [⟨0, "HELLO".toList, 1⟩] = none := by decide
example : recognize_from_results 1
    [⟨0, "AB1".toList, 1⟩, ⟨1, "23CD".toList, 1⟩] = "AB123CD".toList := by decide
example : clean_text "Buenos Aires".toList = "BUENOSAIRES".toList := by decide
example : clean_text "AB-123!".toList = "AB123".toList := by decide
example : validate_plate_format "AB123CD".toList = true := by decide
example : validate_plate_format "ABC12345".toList = false := by decide
example : (generate_ambiguity_variants "O0".toList).length = 9 := by decide
example : ((1 : ℚ) ≤ (1 : ℚ)) := by decide
example : ((0 : ℚ) ≤ (2 : ℚ)) := by decide

/-- C3: `validate_plate_format` accepts exactly the strings described by the
length-keyed grammars — length 6 with 3 letters + 3 digits, length 7 with
2+3+2 or 1+3+3, length 8 with 1+3+4 — and rejects every string of any other
length.  It is a total Lean function, hence pure and total. -/
theorem validate_plate_format_iff (s : List Char) :
    validate_plate_format s = true ↔ validate_spec s := by
  by_cases h6 : s.length = 6
  · have e1 : str_isalpha (s.take 3) = (s.take 3).all isAsciiLetter :=
      str_isalpha_eq (by simp [h6])
    have e2 : str_isdigit (s.drop 3) = (s.drop 3).all isDigitChar :=
      str_isdigit_eq (by simp [h6])
    simp [validate_plate_format, validate_spec, h6, e1, e2]
  · by_cases h7 : s.length = 7
    · have e1 : str_isalpha (s.take 2) = (s.take 2).all isAsciiLetter :=
        str_isalpha_eq (by simp [h7])
      have e2 : str_isdigit ((s.drop 2).take 3) =
          ((s.drop 2).take 3).all isDigitChar :=
        str_isdigit_eq (by simp [h7])
      have e3 : str_isalpha (s.drop 5) = (s.drop 5).all isAsciiLetter :=
        str_isalpha_eq (by simp [h7])
      have e4 : str_isalpha (s.take 1) = (s.take 1).all isAsciiLetter :=
        str_isalpha_eq (by simp [h7])
      have e5 : str_isdigit (s.tail.take 3) =
          (s.tail.take 3).all isDigitChar :=
        str_isdigit_eq (by simp [h7])
      have e6 : str_isalpha (s.drop 4) = (s.drop 4).all isAsciiLetter :=
        str_isalpha_eq (by simp [h7])
      simp [validate_plate_format, validate_spec, h6, h7, e1, e2, e3, e4, e5, e6,
        and_assoc]
    · by_cases h8 : s.length = 8
      · have e4 : str_isalpha (s.take 1) = (s.take 1).all isAsciiLetter :=
          str_isalpha_eq (by simp [h8])
        have e5 : str_isdigit (s.tail.take 3) =
            (s.tail.take 3).all isDigitChar :=
          str_isdigit_eq (by simp [h8])
        have e6 : str_isalpha (s.drop 4) = (s.drop 4).all isAsciiLetter :=
          str_isalpha_eq (by simp [h8])
        simp [validate_plate_format, validate_spec, h6, h7, h8, e4, e5, e6,
          and_assoc]
      · simp [validate_plate_format, validate_spec, h6, h7, h8]

/-- C7: `clean_text` is a total function whose output contains only the
characters `A`–`Z` and `0`–`9`, and it sends "Buenos Aires" to
"BUENOSAIRES", "AB-123!" to "AB123", and empty or whitespace-only input to
the empty string. -/
theorem clean_text_spec :
    (∀ s : List Char,
      (clean_text s).all (fun c => isUpperAlpha c || isDigitChar c) = true) ∧
    clean_text "Buenos Aires".toList = "BUENOSAIRES".toList ∧
    clean_text "AB-123!".toList = "AB123".toList ∧
    clean_text "".toList = "".toList ∧
    clean_text "   ".toList = "".toList := by
  refine ⟨?_, by decide, by decide, by decide, by decide⟩
  intro s
  rw [List.all_eq_true]
  intro c hc
  exact (List.mem_filter.mp hc).2

/-- C9: the `ambiguous_map` table is reflexive (every key occurs in its own
variant list) and symmetric (for keys `x`, `y`: `y` is in `x`'s list exactly
when `x` is in `y`'s list). -/
theorem ambiguous_map_reflexive_symmetric :
    ambiguous_map.all (fun e => e.2.contains e.1) = true ∧
    ambiguous_map.all (fun e1 => ambiguous_map.all (fun e2 =>
      e1.2.contains e2.1 == e2.2.contains e1.1)) = true := by
  constructor
  · decide
  · decide

theorem length_flatMap' {α β : Type} (l : List α) (f : α → List β) :
    (l.flatMap f).length = (l.map (fun a => (f a).length)).sum := by
  induction l with
  | nil => rfl
  | cons x xs ih => simp [List.flatMap_cons, ih]

theorem pyProduct_length (ls : List (List Char)) :
    (pyProduct ls).length = (ls.map List.length).prod := by
  induction ls with
  | nil => rfl
  | cons l ls ih =>
    calc (pyProduct (l :: ls)).length
        = (l.map (fun a => ((pyProduct ls).map (fun rest => a :: rest)).length)).sum :=
          length_flatMap' l _
      _ = (l.map (fun _ => (pyProduct ls).length)).sum := by simp
      _ = l.length * (pyProduct ls).length := by
          rw [List.map_const', List.sum_replicate, smul_eq_mul]
      _ = ((l :: ls).map List.length).prod := by simp [ih]

theorem mem_pyProduct {v : List Char} {ls : List (List Char)} :
    v ∈ pyProduct ls ↔ List.Forall₂ (fun c l => c ∈ l) v ls := by
  induction ls generalizing v with
  | nil =>
    simp only [pyProduct, List.mem_singleton, List.forall₂_nil_right_iff]
  | cons l ls ih =>
    simp only [pyProduct, List.mem_flatMap, List.mem_map]
    constructor
    · rintro ⟨a, ha, rest, hrest, rfl⟩
      exact List.Forall₂.cons ha (ih.mp hrest)
    · intro h
      cases h with
      | cons hc hrest => exact ⟨_, hc, _, ih.mpr hrest, rfl⟩

/-- C4: `generate_ambiguity_variants s` is exactly the Cartesian product of
the per-character variant sets, in a fixed deterministic product order (it
is a pure function of `s`): membership is pointwise membership in each
character's `ambiguousLookup` set, the number of variants is the product of
the variant-set sizes, and every variant has the length of `s`. -/
theorem generate_ambiguity_variants_spec (s : List Char) :
    (generate_ambiguity_variants s).length =
      (s.map (fun c => (ambiguousLookup c).length)).prod ∧
    (∀ v, v ∈ generate_ambiguity_variants s ↔
      List.Forall₂ (fun vc sc => vc ∈ ambiguousLookup sc) v s) ∧
    (generate_ambiguity_variants s).all (fun v => v.length == s.length) = true := by
  have hmem : ∀ v, v ∈ generate_ambiguity_variants s ↔
      List.Forall₂ (fun vc sc => vc ∈ ambiguousLookup sc) v s := by
    intro v
    rw [generate_ambiguity_variants, mem_pyProduct, List.forall₂_map_right_iff]
  refine ⟨?_, hmem, ?_⟩
  · rw [generate_ambiguity_variants, pyProduct_length, List.map_map]
    rfl
  · rw [List.all_eq_true]
    intro v hv
    have := ((hmem v).mp hv).length_eq
    simpa using this

theorem findSome?_guard_map {α β : Type} (f : α → β) (P : β → Bool) (l : List α) :
    l.findSome? (fun x => if P (f x) then some (f x) else none) =
      (l.map f).find? P := by
  induction l with
  | nil => rfl
  | cons x xs ih =>
    by_cases h : P (f x)
    · simp [List.findSome?_cons, h]
    · simp [List.findSome?_cons, h, ih]

theorem find?_flatMap {α β : Type} (l : List α) (f : α → List β) (p : β → Bool) :
    (l.flatMap f).find? p = l.findSome? (fun x => (f x).find? p) := by
  induction l with
  | nil => rfl
  | cons x xs ih =>
    rw [List.flatMap_cons, List.find?_append, List.findSome?_cons, ih]
    cases h : (f x).find? p <;> simp [h, Option.or]

theorem guard_eq_some {P : List Char → Bool} {x c : List Char}
    (h : (if P x then some x else none) = some c) : c = x ∧ P c = true := by
  by_cases hP : P x
  · simp [hP] at h
    exact ⟨h.symm, h ▸ hP⟩
  · simp [hP] at h

theorem priority_length {c : List Char} (h : isPriorityPattern c = true) :
    c.length = 8 := by
  simp only [isPriorityPattern, Bool.and_eq_true, beq_iff_eq] at h
  exact h.1.1

theorem validate_length {s : List Char} (h : validate_plate_format s = true) :
    s.length = 6 ∨ s.length = 7 ∨ s.length = 8 := by
  by_cases h6 : s.length = 6
  · exact Or.inl h6
  by_cases h7 : s.length = 7
  · exact Or.inr (Or.inl h7)
  by_cases h8 : s.length = 8
  · exact Or.inr (Or.inr h8)
  simp [validate_plate_format, h6, h7, h8] at h

theorem tier1_sound {ts : List (List Char)} {c : List Char}
    (h : tier1 ts = some c) : isPriorityPattern c = true := by
  obtain ⟨p, _, hp⟩ := List.exists_of_findSome?_eq_some h
  exact (guard_eq_some hp).2

theorem tier2_sound {ts : List (List Char)} {c : List Char}
    (h : tier2 ts = some c) : validate_plate_format c = true := by
  obtain ⟨p, _, hp⟩ := List.exists_of_findSome?_eq_some h
  exact (guard_eq_some hp).2

theorem tier3_sound {ts : List (List Char)} {c : List Char}
    (h : tier3 ts = some c) : validate_plate_format c = true := by
  obtain ⟨p, _, hp⟩ := List.exists_of_findSome?_eq_some h
  exact (guard_eq_some hp).2

theorem tier4_sound {ts : List (List Char)} {c : List Char}
    (h : tier4 ts = some c) : validate_plate_format c = true := by
  obtain ⟨p, _, hp⟩ := List.exists_of_findSome?_eq_some h
  exact List.find?_some hp

theorem tier5_sound {ts : List (List Char)} {c : List Char}
    (h : tier5 ts = some c) : validate_plate_format c = true :=
  List.find?_some h

theorem tier6_sound {ts : List (List Char)} {c : List Char}
    (h : tier6 ts = some c) : validate_plate_format c = true := by
  obtain ⟨t, _, ht⟩ := List.exists_of_findSome?_eq_some h
  exact List.find?_some ht

theorem windowCheck_sound {cand c : List Char}
    (h : windowCheck cand = some c) : validate_plate_format c = true := by
  unfold windowCheck at h
  by_cases hv : validate_plate_format cand
  · simp [hv] at h
    exact h ▸ hv
  · simp [hv] at h
    exact List.find?_some h

theorem tier7_sound {group : List Token} {c : List Char}
    (h : tier7 group = some c) : validate_plate_format c = true := by
  unfold tier7 at h
  obtain ⟨len, _, hlen⟩ := List.exists_of_findSome?_eq_some h
  obtain ⟨j, _, hj⟩ := List.exists_of_findSome?_eq_some hlen
  exact windowCheck_sound hj

/-- Every candidate produced by the search is either a Tier-1 priority
pattern or a validator match. -/
theorem extract_sound {minConf : ℚ} {group : List Token} {c : List Char}
    (h : extract_candidate_from_group minConf group = some c) :
    isPriorityPattern c = true ∨ validate_plate_format c = true := by
  unfold extract_candidate_from_group at h
  simp only [Option.or_eq_some] at h
  rcases h with ((((((h | ⟨-, h⟩) | ⟨-, h⟩) | ⟨-, h⟩) | ⟨-, h⟩) | ⟨-, h⟩) | ⟨-, h⟩)
  · exact Or.inl (tier1_sound h)
  · exact Or.inr (tier2_sound h)
  · exact Or.inr (tier3_sound h)
  · exact Or.inr (tier4_sound h)
  · exact Or.inr (tier5_sound h)
  · exact Or.inr (tier6_sound h)
  · exact Or.inr (tier7_sound h)

/-- Every candidate produced by the search has length 6, 7, or 8. -/
theorem extract_length {minConf : ℚ} {group : List Token} {c : List Char}
    (h : extract_candidate_from_group minConf group = some c) :
    c.length = 6 ∨ c.length = 7 ∨ c.length = 8 := by
  rcases extract_sound h with hp | hv
  · exact Or.inr (Or.inr (priority_length hp))
  · exact validate_length hv

/-- When the search finds a candidate, the recognizer returns it. -/
theorem recognize_eq_of_extract {minConf : ℚ} {results : List Token}
    {c : List Char}
    (h : extract_candidate_from_group minConf (sortByY results) = some c) :
    recognize_from_results minConf results = c := by
  have hne : c.isEmpty = false := by
    cases c with
    | nil =>
      rcases extract_length h with h' | h' | h' <;> simp at h'
    | cons a l => rfl
  simp [recognize_from_results, h, hne]

/-- C2: the Tier-1 priority rule returns, verbatim and with no ambiguity
correction, the first concatenation `ts[i] ++ ts[j]` (pairs `(i, j)` with
`i < j` scanned in input order) of length 8 whose first 3 characters are
alphabetic and whose remaining 5 are digits; and whenever this rule fires
its result is the result of the whole search, so it takes precedence over
Tier 2 (and every later tier) even when those would also match. -/
theorem priority_rule_and_precedence (minConf : ℚ) (group : List Token)
    (c : List Char)
    (h : ((orderedPairs (cleaned_texts minConf group)).map
        (fun p => p.1 ++ p.2)).find? isPriorityPattern = some c) :
    tier1 (cleaned_texts minConf group) = some c ∧
    extract_candidate_from_group minConf group = some c := by
  have ht : tier1 (cleaned_texts minConf group) = some c := by
    rw [tier1, findSome?_guard_map]
    exact h
  refine ⟨ht, ?_⟩
  simp [extract_candidate_from_group, ht]

/-- Witness for C2 at a group where Tier 2 would also match
("A123" ++ "BCDE" is a valid plate) but Tier 1 wins with "XYZ12345". -/
theorem priority_rule_and_precedence_witness :
    tier2 (cleaned_texts 1
      [⟨0, "A123".toList, 1⟩, ⟨0, "BCDE".toList, 1⟩, ⟨0, "XYZ".toList, 1⟩,
       ⟨0, "12345".toList, 1⟩]) = some "A123BCDE".toList ∧
    (tier1 (cleaned_texts 1
      [⟨0, "A123".toList, 1⟩, ⟨0, "BCDE".toList, 1⟩, ⟨0, "XYZ".toList, 1⟩,
       ⟨0, "12345".toList, 1⟩]) = some "XYZ12345".toList ∧
     extract_candidate_from_group 1
      [⟨0, "A123".toList, 1⟩, ⟨0, "BCDE".toList, 1⟩, ⟨0, "XYZ".toList, 1⟩,
       ⟨0, "12345".toList, 1⟩] = some "XYZ12345".toList) :=
  ⟨by decide,
   priority_rule_and_precedence 1
     [⟨0, "A123".toList, 1⟩, ⟨0, "BCDE".toList, 1⟩, ⟨0, "XYZ".toList, 1⟩,
      ⟨0, "12345".toList, 1⟩] "XYZ12345".toList (by decide)⟩

/-- The window/variant attempts of the fallback tier in the order the code
tries them: lengths 6, then 7, then 8; within a length, window positions
left to right; within a position, the raw window first, then its ambiguity
variants in product order. -/
def tier7_attempts (combined : List Char) : List (List Char) :=
  [6, 7, 8].flatMap (fun len =>
    (List.range (combined.length + 1 - len)).flatMap (fun j =>
      (combined.drop j).take len ::
        generate_ambiguity_variants ((combined.drop j).take len)))

theorem windowCheck_eq_find? (cand : List Char) :
    windowCheck cand =
      (cand :: generate_ambiguity_variants cand).find? validate_plate_format := by
  rw [windowCheck, List.find?_cons]
  by_cases h : validate_plate_format cand <;> simp [h]

/-- C5: the fallback tier concatenates the normalized, non-ignored texts of
ALL tokens of the group in input order (its result is independent of the
confidences, so the confidence filter is not reapplied) and returns the
first validator match among the attempts enumerated by `tier7_attempts`:
every window of length 6 (raw first, then each ambiguity variant) before
any of length 7, before any of length 8, left to right. -/
theorem tier7_fallback_spec (g g' : List Token)
    (h : g.map Token.text = g'.map Token.text) :
    tier7 g = (tier7_attempts ((fallback_texts g).flatten)).find?
        validate_plate_format ∧
    tier7 g = tier7 g' := by
  have hmain : ∀ gr : List Token, tier7 gr =
      (tier7_attempts ((fallback_texts gr).flatten)).find?
        validate_plate_format := by
    intro gr
    simp only [tier7, tier7_attempts]
    simp only [find?_flatMap, windowCheck_eq_find?]
  have hf : fallback_texts g = fallback_texts g' := by
    unfold fallback_texts
    have e : ∀ gr : List Token, gr.map (fun tok => clean_text tok.text) =
        (gr.map Token.text).map clean_text := by
      intro gr
      rw [List.map_map]
      rfl
    rw [e g, e g', h]
  refine ⟨hmain g, ?_⟩
  rw [hmain g, hmain g', hf]

/-- Witness for C5: two groups with the same texts but different
confidences (one below any positive threshold) give the same fallback
result, and the result is the first attempt that validates. -/
theorem tier7_fallback_spec_witness :
    tier7 [⟨0, "AB1".toList, 1⟩, ⟨0, "23CD".toList, 0⟩] =
      (tier7_attempts ((fallback_texts
        [⟨0, "AB1".toList, 1⟩, ⟨0, "23CD".toList, 0⟩]).flatten)).find?
        validate_plate_format ∧
    tier7 [⟨0, "AB1".toList, 1⟩, ⟨0, "23CD".toList, 0⟩] =
      tier7 [⟨0, "AB1".toList, 0⟩, ⟨0, "23CD".toList, 1⟩] :=
  tier7_fallback_spec
    [⟨0, "AB1".toList, 1⟩, ⟨0, "23CD".toList, 0⟩]
    [⟨0, "AB1".toList, 0⟩, ⟨0, "23CD".toList, 1⟩] (by decide)

/-- C6: a token survives the pre-filter feeding Tiers 1–6 exactly when its
confidence is at least the configured minimum (a token exactly at the
threshold is kept), its cleaned text is not an ignore word, and its cleaned
text has length at most 8; the token list used by Tiers 1–6 is exactly the
cleaned texts of the surviving tokens, in input order. -/
theorem prefilter_spec (minConf : ℚ) (group : List Token) (tok : Token) :
    (keepToken minConf tok = true ↔
      (minConf ≤ tok.conf ∧
       ignore_words.contains (clean_text tok.text) = false ∧
       (clean_text tok.text).length ≤ 8)) ∧
    cleaned_texts minConf group =
      (group.filter (keepToken minConf)).map (fun t => clean_text t.text) := by
  refine ⟨?_, rfl⟩
  simp only [keepToken, should_ignore, Bool.and_eq_true, decide_eq_true_eq,
    Bool.not_eq_true', Bool.or_eq_false_iff, decide_eq_false_iff_not,
    Nat.not_lt]

/-- C8: when every tier fails the search returns `none` (its no-candidate
indicator, distinct from every string), and the recognizer then returns the
fixed sentinel, which itself fails the Format Validator; the search and
the recognizer are total Lean functions, so no exception is modelled or
possible. -/
theorem no_candidate_sentinel (minConf : ℚ) (results : List Token)
    (h : extract_candidate_from_group minConf (sortByY results) = none) :
    recognize_from_results minConf results = sentinel ∧
    validate_plate_format sentinel = false :=
  ⟨by simp [recognize_from_results, h], by decide⟩

/-- Witness for C8 at the no-match group `[("HELLO", 1)]`. -/
theorem no_candidate_sentinel_witness :
    recognize_from_results 1 [⟨0, "HELLO".toList, 1⟩] = sentinel ∧
    validate_plate_format sentinel = false :=
  no_candidate_sentinel 1 [⟨0, "HELLO".toList, 1⟩] (by decide)

/-- C10: every candidate the search returns has length 6, 7 or 8 — in
particular it is not the empty string — so the recognizer's truthiness
test returns the candidate itself, never the sentinel, when a candidate
was found. -/
theorem extract_candidate_shape (minConf : ℚ) (results : List Token)
    (c : List Char)
    (h : extract_candidate_from_group minConf (sortByY results) = some c) :
    (c.length = 6 ∨ c.length = 7 ∨ c.length = 8) ∧ c.isEmpty = false ∧
    recognize_from_results minConf results = c := by
  refine ⟨extract_length h, ?_, recognize_eq_of_extract h⟩
  cases c with
  | nil => rcases extract_length h with h' | h' | h' <;> simp at h'
  | cons a l => rfl

/-- Witness for C10 at the group `[("AB1", 1), ("23CD", 1)]`, where Tier 2
finds "AB123CD". -/
theorem extract_candidate_shape_witness :
    (("AB123CD".toList.length = 6 ∨ "AB123CD".toList.length = 7 ∨
      "AB123CD".toList.length = 8) ∧ "AB123CD".toList.isEmpty = false ∧
     recognize_from_results 1 [⟨0, "AB1".toList, 1⟩, ⟨1, "23CD".toList, 1⟩] =
       "AB123CD".toList) :=
  extract_candidate_shape 1 [⟨0, "AB1".toList, 1⟩, ⟨1, "23CD".toList, 1⟩]
    "AB123CD".toList (by decide)

/-- C1 as stated fails: with tokens "ABC" and "12345" the Tier-1 priority
rule fires and the recognizer returns "ABC12345", a string that does NOT
satisfy the Format Validator and is not the sentinel. -/
theorem recognize_output_counterexample :
    recognize_from_results 1 [⟨0, "ABC".toList, 1⟩, ⟨0, "12345".toList, 1⟩] =
      "ABC12345".toList ∧
    validate_plate_format "ABC12345".toList = false ∧
    ("ABC12345".toList == sentinel) = false :=
  ⟨by decide, by decide, by decide⟩

/-- C1 amended: every value the recognizer returns from a token list is
either the fixed sentinel or a string of length 6–8 that satisfies the
Format Validator or matches the Tier-1 priority pattern (3 alphabetic
characters followed by 5 digits). -/
theorem recognize_output_shape (minConf : ℚ) (results : List Token) :
    recognize_from_results minConf results = sentinel ∨
    (((recognize_from_results minConf results).length = 6 ∨
      (recognize_from_results minConf results).length = 7 ∨
      (recognize_from_results minConf results).length = 8) ∧
     (validate_plate_format (recognize_from_results minConf results) = true ∨
      isPriorityPattern (recognize_from_results minConf results) = true)) := by
  cases h : extract_candidate_from_group minConf (sortByY results) with
  | none => exact Or.inl (by simp [recognize_from_results, h])
  | some c =>
    have hr := recognize_eq_of_extract h
    right
    rw [hr]
    exact ⟨extract_length h, (extract_sound h).symm⟩

end ANPR
